import Mathlib

/-!
Shallow embedding of the TIFF tile-stitching utility
(`pathml/preprocessing/tilestitcher.py`): the TIFF signature validator
(`checkTIFF` / `toShort`), the region locator (`parseRegion`),
the batch driver (`parse_regions`), output-name normalization
(`_get_outfile`) and input collection (`_collect_tif_files`).

Modelling conventions:
- bytes are `Nat` (values 0..255 in practice; no claim depends on the bound);
- Python strings are `List Char`; `str.endswith` is `List.isSuffixOf`;
- opening a file is modelled by `FileAccess`: the `open` call can raise a
  not-found error, an I/O error, some other unexpected error, or succeed
  and yield the file bytes;
- a raised Python exception is the `Except.error` branch; a function that
  catches an exception and falls through returns `Except.ok` with the
  value Python would produce (`none` models Python `None`);
- Python float arithmetic in `parseRegion` is idealized as exact rational
  arithmetic over `ℚ`; Python `round` (round-half-to-even) is `pyRound`.
-/

/-- `toShort(b1, b2) = (b1 << 8) + b2`, the two-byte big-endian compose
used by the validator. -/
def toShort (b1 b2 : Nat) : Nat := (b1 <<< 8) + b2

/-- Outcome of `open(file, "rb")` followed by `f.read(4)`:
the distinct failure modes the validator's `try` block can see. -/
inductive FileAccess where
  | notFound
  | ioErr
  | otherErr
  | content (bytes : List Nat)
deriving DecidableEq

/-- The two exception classes `checkTIFF` re-raises. -/
inductive PyError where
  | fileNotFound
  | ioFailure
deriving DecidableEq

/-- Body of `checkTIFF` on the (at most 4) bytes returned by `f.read(4)`:
`none` models an `IndexError` from an out-of-range `bytes[i]` access,
caught by the generic `except Exception` handler (which returns `None`). -/
def checkTIFFRead4 (bytes : List Nat) : Option Bool :=
  match bytes.get? 0, bytes.get? 1 with
  | some b0, some b1 =>
    if toShort b0 b1 = 0x4949 then
      match bytes.get? 3, bytes.get? 2 with
      | some b3, some b2 => some (decide (toShort b3 b2 = 42 ∨ toShort b3 b2 = 43))
      | _, _ => none
    else if toShort b0 b1 = 0x4D4D then
      match bytes.get? 2, bytes.get? 3 with
      | some b2, some b3 => some (decide (toShort b2 b3 = 42 ∨ toShort b2 b3 = 43))
      | _, _ => none
    else some false
  | _, _ => none

/-- `TileStitcher.checkTIFF`: raises on not-found / I/O failure, returns
`None` (here `Option.none`) after any other failure, otherwise inspects
the first 4 bytes. -/
def checkTIFF (f : FileAccess) : Except PyError (Option Bool) :=
  match f with
  | .notFound => .error .fileNotFound
  | .ioErr => .error .ioFailure
  | .otherErr => .ok none
  | .content bytes => .ok (checkTIFFRead4 (bytes.take 4))

/-- Python `round` on an exact rational: nearest integer,
ties to the even integer (banker's rounding). -/
def pyRound (q : ℚ) : ℤ :=
  if Int.fract q < 1/2 then ⌊q⌋
  else if 1/2 < Int.fract q then ⌊q⌋ + 1
  else if ⌊q⌋ % 2 = 0 then ⌊q⌋ else ⌊q⌋ + 1

/-- A TIFF RATIONAL tag value: `value[0]` (numerator), `value[1]`
(denominator), both unsigned. -/
structure TiffRational where
  num : Nat
  den : Nat
deriving DecidableEq

/-- The tags `parseRegion` looks up on `tif.pages[0].tags`;
`tags.get` returns `None` for an absent tag, hence the `Option`s. -/
structure TiffTags where
  xPosition : Option TiffRational
  yPosition : Option TiffRational
  xResolution : Option TiffRational
  yResolution : Option TiffRational
  imageWidth : Option Nat
  imageLength : Option Nat
deriving DecidableEq

/-- `ImageRegion.createInstance(x, y, width, height, z, t)`. -/
structure Region where
  x : ℤ
  y : ℤ
  width : Nat
  height : Nat
  z : Nat
  t : Nat
deriving DecidableEq

/-- A tile file as `parseRegion` sees it: the raw-byte view the validator
reads, and the first page's tags as `tifffile` parses them. -/
structure TileFile where
  raw : FileAccess
  tags : TiffTags
deriving DecidableEq

/-- The `try` block of `parseRegion`: returns `none` both on the explicit
`return None` for a missing position/resolution tag and when an exception
(zero denominator, `.value` of an absent width/height tag) is caught by
the `except Exception` handler. -/
def parseRegionBody (tags : TiffTags) (z t : Nat) : Option Region :=
  match tags.xPosition, tags.yPosition, tags.xResolution, tags.yResolution with
  | some xp, some yp, some xr, some yr =>
    if xp.den = 0 ∨ yp.den = 0 ∨ xr.den = 0 ∨ yr.den = 0 then none
    else
      match tags.imageLength, tags.imageWidth with
      | some height, some width =>
        let xpos : ℚ := 10000 * xp.num / xp.den
        let xres : ℚ := xr.num / (xr.den * 10000)
        let ypos : ℚ := 10000 * yp.num / yp.den
        let yres : ℚ := yr.num / (yr.den * 10000)
        some ⟨pyRound (xpos * xres), pyRound (ypos * yres), width, height, z, t⟩
      | _, _ => none
  | _, _, _, _ => none

/-- `TileStitcher.parseRegion(file, z=0, t=0)`: a raised not-found / I/O
error from `checkTIFF` propagates (the `try` starts after the call);
a falsy validator result (`False` or `None`) yields `None`. -/
def parseRegion (file : TileFile) (z t : Nat) : Except PyError (Option Region) :=
  match checkTIFF file.raw with
  | .error e => .error e
  | .ok v => if v = some true then .ok (parseRegionBody file.tags z t) else .ok none

/-- `TileStitcher.parse_regions`: per-file `try`/`except Exception`
(so even a raised validator error only skips that file), `None` regions
are skipped with a warning, successful regions are accumulated in order. -/
def parse_regions : List TileFile → List Region
  | [] => []
  | f :: fs =>
    match parseRegion f 0 0 with
    | .ok (some r) => r :: parse_regions fs
    | _ => parse_regions fs

/-- The literal `".ome.tif"` from `_get_outfile`. -/
def omeSuffix : List Char := ".ome.tif".toList

/-- `TileStitcher._get_outfile` (up to wrapping in `java.io.File`):
append `".ome.tif"` unless the name already ends with it. -/
def get_outfile (fileout : List Char) : List Char :=
  if omeSuffix.isSuffixOf fileout then fileout else fileout ++ omeSuffix

/-- The literal `".tif"` suffix from `_collect_tif_files`. -/
def tifSuffix : List Char := ".tif".toList

/-- A directory as the recursive glob sees it: its files and its
subdirectories. -/
inductive DirTree where
  | node (files : List (List Char)) (subdirs : List DirTree)

mutual

/-- `glob.glob(os.path.join(input, "**/*.tif"), recursive=True)`:
every file under the tree (at any depth) whose name matches `*.tif`. -/
def globTif : DirTree → List (List Char)
  | .node files subdirs => files.filter (fun f => tifSuffix.isSuffixOf f) ++ globTifList subdirs

/-- Recursive-glob results of a list of subdirectories, in order. -/
def globTifList : List DirTree → List (List Char)
  | [] => []
  | d :: ds => globTif d ++ globTifList ds

end

mutual

/-- All files under a directory tree, at any depth, in scan order. -/
def allFiles : DirTree → List (List Char)
  | .node files subdirs => files ++ allFilesList subdirs

/-- All files under a list of directory trees. -/
def allFilesList : List DirTree → List (List Char)
  | [] => []
  | d :: ds => allFiles d ++ allFilesList ds

end

/-- The `input` argument of `_collect_tif_files`: a string naming an
existing directory (carrying the directory's tree), a list of path
strings, or anything else (a non-directory string included), which the
function rejects with a message. -/
inductive CollectInput where
  | dir (tree : DirTree)
  | strList (files : List (List Char))
  | invalid

/-- `TileStitcher._collect_tif_files`. -/
def collect_tif_files : CollectInput → List (List Char)
  | .dir tree => globTif tree
  | .strList files => files.filter (fun f => tifSuffix.isSuffixOf f)
  | .invalid => []

/-- The concrete tile of testable property 4: a little-endian classic-TIFF
signature, `XPosition=(0,1)`, `YPosition=(0,1)`, `XResolution=(1,1)`,
`YResolution=(1,1)`, width 100, height 100. -/
def exampleTile : TileFile :=
  ⟨.content [0x49, 0x49, 42, 0],
   ⟨some ⟨0, 1⟩, some ⟨0, 1⟩, some ⟨1, 1⟩, some ⟨1, 1⟩, some 100, some 100⟩⟩

/-- A tile with a valid TIFF signature whose first page lacks `XPosition`. -/
def missingTagTile : TileFile :=
  ⟨.content [0x49, 0x49, 42, 0],
   ⟨none, some ⟨0, 1⟩, some ⟨1, 1⟩, some ⟨1, 1⟩, some 100, some 100⟩⟩

/-- A tile with a valid TIFF signature and all four position/resolution
tags, but no `ImageWidth` tag. -/
def missingWidthTile : TileFile :=
  ⟨.content [0x49, 0x49, 42, 0],
   ⟨some ⟨0, 1⟩, some ⟨0, 1⟩, some ⟨1, 1⟩, some ⟨1, 1⟩, none, some 100⟩⟩

/-- A directory holding exactly one `*.tif` file among non-tif files. -/
def exampleDir : DirTree :=
  .node ["a.tif".toList, "b.txt".toList, "notes.md".toList] []

theorem parseRegion_of_not_valid (file : TileFile) (z t : Nat) (v : Option Bool)
    (hv : checkTIFF file.raw = .ok v) (hne : v ≠ some true) :
    parseRegion file z t = .ok none := by
  unfold parseRegion
  rw [hv]
  show (if v = some true then Except.ok (parseRegionBody file.tags z t) else Except.ok none) =
    Except.ok none
  rw [if_neg hne]

theorem parse_regions_cons_skip (f : TileFile) (fs : List TileFile)
    (h : parseRegion f 0 0 = .ok none) :
    parse_regions (f :: fs) = parse_regions fs := by
  simp [parse_regions, h]

/-- C4: calling `checkTIFF` on a nonexistent path re-raises the not-found
failure, and on an existing but unreadable path re-raises the I/O failure;
both are propagated to the caller, not swallowed. -/
theorem checkTIFF_propagates_open_failures :
    checkTIFF .notFound = .error .fileNotFound ∧
    checkTIFF .ioErr = .error .ioFailure :=
  ⟨rfl, rfl⟩

/-- C5: a failure of the 4-byte read that is neither not-found nor an I/O
failure is not re-raised: `checkTIFF` returns no definitive answer
(`none`), and the downstream caller `parseRegion` treats that falsy result
as "not a valid TIFF", producing no Region and no error. -/
theorem checkTIFF_unexpected_failure_swallowed :
    checkTIFF .otherErr = .ok none ∧
    ∀ (tags : TiffTags) (z t : Nat),
      parseRegion ⟨.otherErr, tags⟩ z t = .ok none := by
  refine ⟨rfl, fun tags z t => ?_⟩
  exact parseRegion_of_not_valid ⟨.otherErr, tags⟩ z t none rfl (by simp)

/-- C9: the validator is a deterministic function of the file's first
4 bytes, so two runs over the same unchanged contents agree. -/
theorem checkTIFF_deterministic (c1 c2 : List Nat) (h : c1.take 4 = c2.take 4) :
    checkTIFF (.content c1) = checkTIFF (.content c2) := by
  simp [checkTIFF, h]

theorem checkTIFF_deterministic_witness :
    ([0x49, 0x49, 42, 0, 5] : List Nat).take 4 = ([0x49, 0x49, 42, 0, 9] : List Nat).take 4 ∧
    checkTIFF (.content [0x49, 0x49, 42, 0, 5]) = checkTIFF (.content [0x49, 0x49, 42, 0, 9]) :=
  ⟨by decide, checkTIFF_deterministic [0x49, 0x49, 42, 0, 5] [0x49, 0x49, 42, 0, 9] (by decide)⟩

/-- C2: on any file of at least 4 bytes the validator depends only on the
first 4 bytes and returns, without error, `True` exactly when the marker
`(byte0 << 8) + byte1` is `0x4949` with version `(byte3 << 8) + byte2` in
`{42, 43}`, or `0x4D4D` with version `(byte2 << 8) + byte3` in `{42, 43}`;
any other marker gives `False`, not an error. -/
theorem checkTIFF_first_four (bytes : List Nat) (h : 4 ≤ bytes.length) :
    checkTIFF (.content bytes) = checkTIFF (.content (bytes.take 4)) ∧
    checkTIFF (.content bytes) =
      .ok (some (decide
        ((toShort (bytes.getD 0 0) (bytes.getD 1 0) = 0x4949 ∧
            (toShort (bytes.getD 3 0) (bytes.getD 2 0) = 42 ∨
              toShort (bytes.getD 3 0) (bytes.getD 2 0) = 43)) ∨
          (toShort (bytes.getD 0 0) (bytes.getD 1 0) = 0x4D4D ∧
            (toShort (bytes.getD 2 0) (bytes.getD 3 0) = 42 ∨
              toShort (bytes.getD 2 0) (bytes.getD 3 0) = 43))))) := by
  match bytes, h with
  | b0 :: b1 :: b2 :: b3 :: rest, _ =>
    refine ⟨by simp [checkTIFF], ?_⟩
    have e : checkTIFF (.content (b0 :: b1 :: b2 :: b3 :: rest)) =
        .ok (if toShort b0 b1 = 0x4949 then
              some (decide (toShort b3 b2 = 42 ∨ toShort b3 b2 = 43))
            else if toShort b0 b1 = 0x4D4D then
              some (decide (toShort b2 b3 = 42 ∨ toShort b2 b3 = 43))
            else some false) := rfl
    rw [e]
    simp only [List.getD_cons_zero, List.getD_cons_succ]
    split_ifs with h49 h4D
    · simp [h49]
    · simp [h49, h4D]
    · simp [h49, h4D]

theorem checkTIFF_first_four_witness :
    4 ≤ ([0x4D, 0x4D, 0, 43, 7] : List Nat).length ∧
    (checkTIFF (.content [0x4D, 0x4D, 0, 43, 7]) =
        checkTIFF (.content (([0x4D, 0x4D, 0, 43, 7] : List Nat).take 4)) ∧
      checkTIFF (.content [0x4D, 0x4D, 0, 43, 7]) =
        .ok (some (decide
          ((toShort (([0x4D, 0x4D, 0, 43, 7] : List Nat).getD 0 0)
                (([0x4D, 0x4D, 0, 43, 7] : List Nat).getD 1 0) = 0x4949 ∧
              (toShort (([0x4D, 0x4D, 0, 43, 7] : List Nat).getD 3 0)
                  (([0x4D, 0x4D, 0, 43, 7] : List Nat).getD 2 0) = 42 ∨
                toShort (([0x4D, 0x4D, 0, 43, 7] : List Nat).getD 3 0)
                  (([0x4D, 0x4D, 0, 43, 7] : List Nat).getD 2 0) = 43)) ∨
            (toShort (([0x4D, 0x4D, 0, 43, 7] : List Nat).getD 0 0)
                (([0x4D, 0x4D, 0, 43, 7] : List Nat).getD 1 0) = 0x4D4D ∧
              (toShort (([0x4D, 0x4D, 0, 43, 7] : List Nat).getD 2 0)
                  (([0x4D, 0x4D, 0, 43, 7] : List Nat).getD 3 0) = 42 ∨
                toShort (([0x4D, 0x4D, 0, 43, 7] : List Nat).getD 2 0)
                  (([0x4D, 0x4D, 0, 43, 7] : List Nat).getD 3 0) = 43)))))) :=
  ⟨by decide, checkTIFF_first_four [0x4D, 0x4D, 0, 43, 7] (by decide)⟩

/-- C10 counterexample: the 2-byte file `[0, 0]` is shorter than 4 bytes,
yet `checkTIFF` returns the definitive answer `False`, not `None`: the
marker test fails before any out-of-range byte access happens. -/
theorem checkTIFF_short_file_not_always_none :
    ([0, 0] : List Nat).length < 4 ∧
    checkTIFF (.content [0, 0]) = .ok (some false) ∧
    checkTIFF (.content [0, 0]) ≠ .ok none := by
  refine ⟨by decide, rfl, fun h => ?_⟩
  have e : checkTIFF (.content [0, 0]) = .ok (some false) := rfl
  rw [e] at h
  simp at h

/-- C10 (amended): a readable file shorter than 4 bytes never raises: the
validator answers `None` (out-of-range access caught by the generic
handler) or `False` (marker test already failed), and in either case
`parseRegion` treats the file as not a valid TIFF and produces no
Region. -/
theorem checkTIFF_short_file (c : List Nat) (h : c.length < 4) :
    (checkTIFF (.content c) = .ok none ∨ checkTIFF (.content c) = .ok (some false)) ∧
    ∀ (tags : TiffTags) (z t : Nat), parseRegion ⟨.content c, tags⟩ z t = .ok none := by
  have hres : checkTIFF (.content c) = .ok none ∨ checkTIFF (.content c) = .ok (some false) := by
    match c, h with
    | [], _ => exact Or.inl rfl
    | [a], _ => exact Or.inl rfl
    | [a, b], _ =>
      by_cases h1 : toShort a b = 0x4949
      · exact Or.inl (by simp [checkTIFF, checkTIFFRead4, h1])
      · by_cases h2 : toShort a b = 0x4D4D
        · exact Or.inl (by simp [checkTIFF, checkTIFFRead4, h1, h2])
        · exact Or.inr (by simp [checkTIFF, checkTIFFRead4, h1, h2])
    | [a, b, d], _ =>
      by_cases h1 : toShort a b = 0x4949
      · exact Or.inl (by simp [checkTIFF, checkTIFFRead4, h1])
      · by_cases h2 : toShort a b = 0x4D4D
        · exact Or.inl (by simp [checkTIFF, checkTIFFRead4, h1, h2])
        · exact Or.inr (by simp [checkTIFF, checkTIFFRead4, h1, h2])
  refine ⟨hres, fun tags z t => ?_⟩
  rcases hres with hv | hv
  · exact parseRegion_of_not_valid ⟨.content c, tags⟩ z t none hv (by simp)
  · exact parseRegion_of_not_valid ⟨.content c, tags⟩ z t (some false) hv (by simp)

theorem checkTIFF_short_file_witness :
    ([0, 0] : List Nat).length < 4 ∧
    ((checkTIFF (.content [0, 0]) = .ok none ∨
        checkTIFF (.content [0, 0]) = .ok (some false)) ∧
      ∀ (tags : TiffTags) (z t : Nat),
        parseRegion ⟨.content [0, 0], tags⟩ z t = .ok none) :=
  ⟨by decide, checkTIFF_short_file [0, 0] (by decide)⟩

theorem parseRegionBody_missing_tag (xp yp xr yr : Option TiffRational)
    (w hgt : Option Nat) (z t : Nat)
    (hmiss : xp = none ∨ yp = none ∨ xr = none ∨ yr = none) :
    parseRegionBody ⟨xp, yp, xr, yr, w, hgt⟩ z t = none := by
  rcases xp with _ | xpv <;> rcases yp with _ | ypv <;>
    rcases xr with _ | xrv <;> rcases yr with _ | yrv <;>
    simp_all [parseRegionBody]

/-- C3: on an otherwise-valid TIFF tile missing any one of the four
position/resolution tags, `parseRegion` returns `None` without raising,
and `parse_regions` skips the tile and continues with the rest of the
batch. -/
theorem parseRegion_missing_tag (tile : TileFile)
    (hvalid : checkTIFF tile.raw = .ok (some true))
    (hmiss : tile.tags.xPosition = none ∨ tile.tags.yPosition = none ∨
      tile.tags.xResolution = none ∨ tile.tags.yResolution = none) :
    parseRegion tile 0 0 = .ok none ∧
    ∀ rest : List TileFile, parse_regions (tile :: rest) = parse_regions rest := by
  obtain ⟨raw, xp, yp, xr, yr, w, hgt⟩ := tile
  have h1 : parseRegion ⟨raw, xp, yp, xr, yr, w, hgt⟩ 0 0 = .ok none := by
    unfold parseRegion
    rw [hvalid]
    show (if some true = some true then
        Except.ok (parseRegionBody ⟨xp, yp, xr, yr, w, hgt⟩ 0 0) else Except.ok none) =
      Except.ok none
    rw [if_pos rfl, parseRegionBody_missing_tag xp yp xr yr w hgt 0 0 hmiss]
  exact ⟨h1, fun rest => parse_regions_cons_skip _ rest h1⟩

theorem parseRegion_missing_tag_witness :
    checkTIFF missingTagTile.raw = .ok (some true) ∧
    missingTagTile.tags.xPosition = none ∧
    (parseRegion missingTagTile 0 0 = .ok none ∧
      ∀ rest : List TileFile,
        parse_regions (missingTagTile :: rest) = parse_regions rest) :=
  ⟨rfl, rfl, parseRegion_missing_tag missingTagTile rfl (Or.inl rfl)⟩

/-- C6: on a valid TIFF tile carrying all four position/resolution tags
but lacking `ImageWidth` or `ImageLength`, the lookup failure is caught
inside `parseRegion`: no error propagates, no Region is produced, and the
batch continues with the remaining tiles. -/
theorem parseRegion_missing_dimension (raw : FileAccess) (xp yp xr yr : TiffRational)
    (w hgt : Option Nat)
    (hvalid : checkTIFF raw = .ok (some true))
    (hwh : w = none ∨ hgt = none) :
    parseRegion ⟨raw, some xp, some yp, some xr, some yr, w, hgt⟩ 0 0 = .ok none ∧
    ∀ rest : List TileFile,
      parse_regions (⟨raw, some xp, some yp, some xr, some yr, w, hgt⟩ :: rest) =
        parse_regions rest := by
  have hbody : parseRegionBody ⟨some xp, some yp, some xr, some yr, w, hgt⟩ 0 0 = none := by
    rcases w with _ | wv <;> rcases hgt with _ | hv <;> simp_all [parseRegionBody]
  have h1 : parseRegion ⟨raw, some xp, some yp, some xr, some yr, w, hgt⟩ 0 0 = .ok none := by
    unfold parseRegion
    rw [hvalid]
    show (if some true = some true then
        Except.ok (parseRegionBody ⟨some xp, some yp, some xr, some yr, w, hgt⟩ 0 0)
      else Except.ok none) = Except.ok none
    rw [if_pos rfl, hbody]
  exact ⟨h1, fun rest => parse_regions_cons_skip _ rest h1⟩

theorem parseRegion_missing_dimension_witness :
    checkTIFF missingWidthTile.raw = .ok (some true) ∧
    missingWidthTile.tags.imageWidth = none ∧
    (parseRegion missingWidthTile 0 0 = .ok none ∧
      ∀ rest : List TileFile,
        parse_regions (missingWidthTile :: rest) = parse_regions rest) :=
  ⟨rfl, rfl,
    parseRegion_missing_dimension (.content [0x49, 0x49, 42, 0])
      ⟨0, 1⟩ ⟨0, 1⟩ ⟨1, 1⟩ ⟨1, 1⟩ none (some 100) rfl (Or.inl rfl)⟩

/-- C1: on a valid TIFF tile whose first page carries all four
position/resolution tags (as rationals with nonzero denominators) plus
width and height, `parseRegion` yields the Region with
`x = round((10000 * XPos.num / XPos.den) * (XRes.num / (XRes.den * 10000)))`,
`y` computed analogously, the read width and height, and `z = t = 0`;
in particular the all-zero-position, unit-resolution, 100x100 tile yields
the Region with origin `(0, 0)`, width 100, height 100. -/
theorem parseRegion_region_formula (raw : FileAccess) (xp yp xr yr : TiffRational)
    (w hgt : Nat)
    (hvalid : checkTIFF raw = .ok (some true))
    (hxp : xp.den ≠ 0) (hyp : yp.den ≠ 0) (hxr : xr.den ≠ 0) (hyr : yr.den ≠ 0) :
    parseRegion ⟨raw, some xp, some yp, some xr, some yr, some w, some hgt⟩ 0 0 =
      .ok (some
        ⟨pyRound ((10000 * (xp.num : ℚ) / (xp.den : ℚ)) *
            ((xr.num : ℚ) / ((xr.den : ℚ) * 10000))),
          pyRound ((10000 * (yp.num : ℚ) / (yp.den : ℚ)) *
            ((yr.num : ℚ) / ((yr.den : ℚ) * 10000))),
          w, hgt, 0, 0⟩) ∧
    parseRegion exampleTile 0 0 = .ok (some ⟨0, 0, 100, 100, 0, 0⟩) := by
  constructor
  · unfold parseRegion
    rw [hvalid]
    show (if some true = some true then
        Except.ok (parseRegionBody ⟨some xp, some yp, some xr, some yr, some w, some hgt⟩ 0 0)
      else Except.ok none) = _
    rw [if_pos rfl]
    simp [parseRegionBody, hxp, hyp, hxr, hyr]
  · have hchk : checkTIFF exampleTile.raw = .ok (some true) := rfl
    unfold parseRegion
    rw [hchk]
    show (if some true = some true then
        Except.ok (parseRegionBody exampleTile.tags 0 0) else Except.ok none) = _
    rw [if_pos rfl]
    show Except.ok (parseRegionBody
      ⟨some ⟨0, 1⟩, some ⟨0, 1⟩, some ⟨1, 1⟩, some ⟨1, 1⟩, some 100, some 100⟩ 0 0) = _
    simp only [parseRegionBody]
    norm_num [pyRound]

theorem parseRegion_region_formula_witness :
    checkTIFF (.content [0x49, 0x49, 42, 0]) = .ok (some true) ∧
    (1 : Nat) ≠ 0 ∧
    parseRegion exampleTile 0 0 = .ok (some ⟨0, 0, 100, 100, 0, 0⟩) :=
  ⟨rfl, by decide,
    (parseRegion_region_formula (.content [0x49, 0x49, 42, 0])
      ⟨0, 1⟩ ⟨0, 1⟩ ⟨1, 1⟩ ⟨1, 1⟩ 100 100 rfl
      (by decide) (by decide) (by decide) (by decide)).2⟩

/-- C7: output-name normalization appends `".ome.tif"` exactly when the
name does not already end with it, and otherwise leaves it unchanged;
in particular `"test"` becomes `"test.ome.tif"` and `"test.ome.tif"`
stays itself. -/
theorem get_outfile_normalization (s : List Char) :
    (omeSuffix.isSuffixOf s = true → get_outfile s = s) ∧
    (omeSuffix.isSuffixOf s = false → get_outfile s = s ++ omeSuffix) ∧
    get_outfile "test".toList = "test.ome.tif".toList ∧
    get_outfile "test.ome.tif".toList = "test.ome.tif".toList := by
  refine ⟨fun h => ?_, fun h => ?_, by decide, by decide⟩
  · simp [get_outfile, h]
  · simp [get_outfile, h]

theorem get_outfile_normalization_witness :
    (omeSuffix.isSuffixOf "test".toList = false ∧
      get_outfile "test".toList = "test".toList ++ omeSuffix) ∧
    (omeSuffix.isSuffixOf "test.ome.tif".toList = true ∧
      get_outfile "test.ome.tif".toList = "test.ome.tif".toList) :=
  ⟨⟨by decide, (get_outfile_normalization "test".toList).2.1 (by decide)⟩,
    ⟨by decide, (get_outfile_normalization "test.ome.tif".toList).1 (by decide)⟩⟩

mutual

theorem mem_globTif : ∀ (d : DirTree) (f : List Char),
    f ∈ globTif d ↔ f ∈ allFiles d ∧ tifSuffix.isSuffixOf f = true
  | .node files subdirs, f => by
    simp only [globTif, allFiles, List.mem_append, List.mem_filter,
      mem_globTifList subdirs f]
    tauto

theorem mem_globTifList : ∀ (ds : List DirTree) (f : List Char),
    f ∈ globTifList ds ↔ f ∈ allFilesList ds ∧ tifSuffix.isSuffixOf f = true
  | [], f => by simp [globTifList, allFilesList]
  | d :: ds, f => by
    simp only [globTifList, allFilesList, List.mem_append,
      mem_globTif d f, mem_globTifList ds f]
    tauto

end

/-- C8: input collection returns, for a list input, exactly the elements
whose names end in `".tif"`, and for a directory input exactly the files
the recursive scan finds whose names end in `".tif"`; in particular a
directory holding exactly one `*.tif` file among non-tif files yields
exactly that file. -/
theorem collect_tif_files_characterization :
    (∀ (files : List (List Char)) (f : List Char),
      f ∈ collect_tif_files (.strList files) ↔
        f ∈ files ∧ tifSuffix.isSuffixOf f = true) ∧
    (∀ (d : DirTree) (f : List Char),
      f ∈ collect_tif_files (.dir d) ↔
        f ∈ allFiles d ∧ tifSuffix.isSuffixOf f = true) ∧
    collect_tif_files (.dir exampleDir) = ["a.tif".toList] := by
  refine ⟨fun files f => ?_, fun d f => mem_globTif d f, ?_⟩
  · simp [collect_tif_files, List.mem_filter]
  · show globTif exampleDir = ["a.tif".toList]
    simp only [exampleDir, globTif, globTifList, List.append_nil]
    decide
